import Mathlib

/-!
Shallow embedding of the Budget & Streak Engine of `streamlit_app.py`
(the Sweety Stash application).

Dates are modelled as epoch-day naturals.  The calendar context that the
Python code reads from `datetime.now()` — the current day, the grouping of
days into calendar months, and the number of days remaining in the current
month — is made an explicit `Clock` value threaded through every
time-sensitive function.  Monetary amounts (Python floats) are modelled as
rationals; `saving_streak` (a Python int) is modelled as an integer.
-/

/-- An expense record, as appended by `log_expense_callback`. -/
structure Expense where
  date : Nat
  amount : ℚ
  category : String
  description : String
  is_big_purchase : Bool
deriving DecidableEq

/-- The persisted ledger document (`st.session_state.app_data`), with the
fields installed by `_initialize_defaults`. -/
structure Ledger where
  monthly_income : ℚ
  monthly_savings_goal : ℚ
  fixed_expenses : List (String × ℚ)
  daily_expenses : List Expense
  extra_goals : List (String × ℚ × ℚ)
  pet_name : String
  saving_streak : Int
  last_streak_date : Option Nat
  daily_treat_given : Bool
  last_treat_date : Option Nat
  rewards_unlocked : List String
deriving DecidableEq

/-- The ambient calendar state the code obtains from `datetime.now()`:
the current epoch day, which calendar month an epoch day belongs to, and
the raw `(last_day - now).days + 1` count for the current month. -/
structure Clock where
  today : Nat
  monthIdx : Nat → Nat
  remainingDaysRaw : Int

/-- The dictionary returned by `get_financial_summary`. -/
structure FinancialSummary where
  monthly_income : ℚ
  fixed_expenses_sum : ℚ
  target_saving : ℚ
  daily_allowance : ℚ
  todays_expenses : ℚ
  todays_savings : ℚ
  total_spent_month : ℚ
  daily_used_percent : ℚ
  remaining_days : Int
deriving DecidableEq

/-- `get_financial_summary`: calculates all key financial metrics. -/
def get_financial_summary (c : Clock) (data : Ledger) : FinancialSummary :=
  let income := data.monthly_income
  let fixed := (data.fixed_expenses.map Prod.snd).sum
  let goal := data.monthly_savings_goal
  let total_spent :=
    ((data.daily_expenses.filter
        (fun e => c.monthIdx e.date = c.monthIdx c.today ∧ ¬e.is_big_purchase)).map
      Expense.amount).sum
  let todays_spent :=
    ((data.daily_expenses.filter
        (fun e => e.date = c.today ∧ ¬e.is_big_purchase)).map
      Expense.amount).sum
  let remaining_days : Int := max 1 c.remainingDaysRaw
  let disposable := income - fixed - goal
  let daily_allowance : ℚ :=
    if remaining_days > 0 then max 0 (disposable / (remaining_days : ℚ)) else 0
  let todays_savings := daily_allowance - todays_spent
  let daily_used_percent : ℚ :=
    if daily_allowance > 0 then min 100 (todays_spent / daily_allowance * 100)
    else 0
  { monthly_income := income
    fixed_expenses_sum := fixed
    target_saving := goal
    daily_allowance := daily_allowance
    todays_expenses := todays_spent
    todays_savings := todays_savings
    total_spent_month := total_spent
    daily_used_percent := daily_used_percent
    remaining_days := remaining_days }

/-- The record returned by `get_pet_status`. -/
structure PetStatus where
  mood : String
  message : String
  image : String
  streak : Int
deriving DecidableEq

/-- `get_pet_status`: determines the pet mood, message, and image.  The
initial `(mood, image, msg)` triple is `("Neutral", cat, "Waiting for
updates...")`; the `if / elif` chain may overwrite it, and a final
unconditional `if treat:` overwrites whatever the chain produced. -/
def get_pet_status (data : Ledger) (financials : FinancialSummary) : PetStatus :=
  let savings := financials.todays_savings
  let treat := data.daily_treat_given
  let base : String × String × String :=
    if financials.monthly_income = 0 then
      ("Neutral", "🐱", "Please set up your budget first in the sidebar!")
    else if 0 ≤ savings ∧ financials.todays_expenses > 0 then
      ("Happy", "😺", "Purrfect! On track today.")
    else if savings < 0 then
      ("Sad", "😿", "Careful! You\x27ve gone over budget.")
    else
      ("Neutral", "🐱", "Waiting for updates...")
  let final : String × String × String :=
    if treat then
      ("Excited", "😻", "Yum! Treats make " ++ data.pet_name ++ " happy! Keep saving!")
    else base
  { mood := final.1
    message := final.2.2
    image := final.2.1
    streak := data.saving_streak }

/-- `check_daily_reset`: clears the daily treat flag on a new day; the
boolean reports whether state changed. -/
def check_daily_reset (c : Clock) (data : Ledger) : Ledger × Bool :=
  if data.last_treat_date ≠ some c.today then
    ({ data with daily_treat_given := false, last_treat_date := some c.today }, true)
  else (data, false)

/-- `update_streak`: updates the saving streak based on the surplus of the
day.  The Python function mutates `data` and returns the new streak; here
the updated ledger is returned. -/
def update_streak (c : Clock) (data : Ledger) (todays_savings : ℚ) : Ledger :=
  if 0 ≤ todays_savings then
    match data.last_streak_date with
    | some last =>
        if last = c.today then data
        else if (c.today : Int) - (last : Int) = 1 then
          { data with saving_streak := data.saving_streak + 1
                      last_streak_date := some c.today }
        else if (c.today : Int) - (last : Int) > 1 then
          { data with saving_streak := 1, last_streak_date := some c.today }
        else
          { data with last_streak_date := some c.today }
    | none =>
        { data with saving_streak := 1, last_streak_date := some c.today }
  else
    { data with saving_streak := 0, last_streak_date := some c.today }

/-- `check_rewards`: checks for and unlocks new rewards.  Returns the
updated ledger together with the `new_reward` value the Python function
returns (`None` or one reward name). -/
def check_rewards (data : Ledger) : Ledger × Option String :=
  let streak := data.saving_streak
  let rewards0 := data.rewards_unlocked
  let step1 : List String × Option String :=
    if 7 ≤ streak ∧ "Weekly Spa" ∉ rewards0 then
      (rewards0 ++ ["Weekly Spa"], some "Weekly Spa")
    else (rewards0, none)
  let step2 : List String × Option String :=
    if 30 ≤ streak ∧ "Monthly Vacation" ∉ step1.1 then
      (step1.1 ++ ["Monthly Vacation"], some "Monthly Vacation")
    else step1
  ({ data with rewards_unlocked := step2.1 }, step2.2)

/-- The rejection raised by `log_expense_callback` for a non-positive
amount (`st.error` followed by an early return). -/
inductive LogError where
  | validationError
deriving DecidableEq

/-- `log_expense_callback`: rejects a non-positive amount before any
mutation; otherwise appends the transaction, recomputes the summary,
updates the streak, and checks rewards.  Returns the updated ledger and
the newly unlocked reward, if any. -/
def log_expense_callback (c : Clock) (data : Ledger) (amount : ℚ)
    (category description : String) (is_big : Bool) :
    Except LogError (Ledger × Option String) :=
  if amount ≤ 0 then .error .validationError
  else
    let transaction : Expense :=
      { date := c.today, amount := amount, category := category
        description := description, is_big_purchase := is_big }
    let data1 := { data with daily_expenses := data.daily_expenses ++ [transaction] }
    let financials := get_financial_summary c data1
    let data2 := update_streak c data1 financials.todays_savings
    .ok (check_rewards data2)

/-- The rejections raised by `update_budget_callback`. -/
inductive BudgetError where
  | negativeInput
  | fixedExceedsIncome
deriving DecidableEq

/-- `update_budget_callback`: rejects negative income/goal and fixed
expenses exceeding income, each before any mutation. -/
def update_budget_callback (data : Ledger) (income goal : ℚ)
    (fixed : List (String × ℚ)) : Except BudgetError Ledger :=
  if income < 0 ∨ goal < 0 then .error .negativeInput
  else if (fixed.map Prod.snd).sum > income then .error .fixedExceedsIncome
  else .ok { data with monthly_income := income
                       monthly_savings_goal := goal
                       fixed_expenses := fixed }

/-- The rejections raised by `give_treat_callback`. -/
inductive TreatError where
  | alreadyTreatedToday
  | overBudget
deriving DecidableEq

/-- `give_treat_callback`: fails if a treat was already given today, or
if the recomputed `todays_savings` is negative; on success sets the treat
flag and stamps `last_treat_date`. -/
def give_treat_callback (c : Clock) (data : Ledger) : Except TreatError Ledger :=
  if data.daily_treat_given then .error .alreadyTreatedToday
  else if 0 ≤ (get_financial_summary c data).todays_savings then
    .ok { data with daily_treat_given := true, last_treat_date := some c.today }
  else .error .overBudget

/-- One core mutating interaction, as dispatched by the callbacks and the
main loop. -/
inductive CoreOp where
  | streakUpdate (c : Clock) (todays_savings : ℚ)
  | rewardCheck
  | logExpense (c : Clock) (amount : ℚ) (category description : String) (is_big : Bool)
  | budgetUpdate (income goal : ℚ) (fixed : List (String × ℚ))
  | giveTreat (c : Clock)
  | dailyReset (c : Clock)

/-- The effect of one core operation on the ledger; a rejected operation
leaves the ledger untouched (the Python callbacks return early). -/
def applyOp (op : CoreOp) (data : Ledger) : Ledger :=
  match op with
  | .streakUpdate c s => update_streak c data s
  | .rewardCheck => (check_rewards data).1
  | .logExpense c a cat desc big =>
      match log_expense_callback c data a cat desc big with
      | .ok r => r.1
      | .error _ => data
  | .budgetUpdate i g f =>
      match update_budget_callback data i g f with
      | .ok l => l
      | .error _ => data
  | .giveTreat c =>
      match give_treat_callback c data with
      | .ok l => l
      | .error _ => data
  | .dailyReset c => (check_daily_reset c data).1

/-- A sequence of core operations applied in order. -/
def applyOps (ops : List CoreOp) (data : Ledger) : Ledger :=
  ops.foldl (fun acc op => applyOp op acc) data

/-! ### Concrete fixtures used by witnesses and counterexamples -/

/-- A concrete clock: day 100, 30 days remaining in the month. -/
def clock30 : Clock :=
  { today := 100, monthIdx := fun d => d / 31, remainingDaysRaw := 30 }

/-- The default-initialized ledger of `_initialize_defaults`. -/
def baseLedger : Ledger :=
  { monthly_income := 0
    monthly_savings_goal := 0
    fixed_expenses := []
    daily_expenses := []
    extra_goals := []
    pet_name := "Sweety"
    saving_streak := 0
    last_streak_date := none
    daily_treat_given := false
    last_treat_date := none
    rewards_unlocked := [] }

/-! ### Streak Tracker claims -/

/-- C3: the streak transition is idempotent within a day — running
`update_streak` twice with the same clock and the same `todays_savings`
yields the same `(saving_streak, last_streak_date)` as running it once. -/
theorem c3_update_streak_idempotent (c : Clock) (data : Ledger) (s : ℚ) :
    (update_streak c (update_streak c data s) s).saving_streak
        = (update_streak c data s).saving_streak
    ∧ (update_streak c (update_streak c data s) s).last_streak_date
        = (update_streak c data s).last_streak_date := by
  by_cases hs : (0 : ℚ) ≤ s
  · rcases hd : data.last_streak_date with _ | d
    · simp [update_streak, hd, hs]
    · by_cases ht : d = c.today
      · simp [update_streak, hd, hs, ht]
      · by_cases h1 : ((c.today : Int) - (d : Int)) = 1
        · simp [update_streak, hd, hs, ht, h1]
        · by_cases h2 : ((c.today : Int) - (d : Int)) > 1
          · simp [update_streak, hd, hs, ht, h1, h2]
          · simp [update_streak, hd, hs, ht, h1, h2]
  · simp [update_streak, hs]

/-- C4: a negative `todays_savings` resets the streak to 0 and stamps
`last_streak_date = today`, whatever the previous state was. -/
theorem c4_negative_savings_resets (c : Clock) (data : Ledger) (s : ℚ)
    (h : s < 0) :
    (update_streak c data s).saving_streak = 0
    ∧ (update_streak c data s).last_streak_date = some c.today := by
  simp [update_streak, not_le.mpr h]

/-- C4 witness: streak 5 with `last_streak_date` = yesterday, savings −1. -/
theorem c4_negative_savings_resets_witness :
    (update_streak clock30
        { baseLedger with saving_streak := 5, last_streak_date := some 99 }
        (-1)).saving_streak = 0
    ∧ (update_streak clock30
        { baseLedger with saving_streak := 5, last_streak_date := some 99 }
        (-1)).last_streak_date = some 100 :=
  c4_negative_savings_resets clock30
    { baseLedger with saving_streak := 5, last_streak_date := some 99 }
    (-1) (by norm_num)

/-- C5: with non-negative savings and a `last_streak_date` that is absent
or strictly more than one day before today, the streak restarts at exactly
1 and `last_streak_date` becomes today. -/
theorem c5_gap_restart (c : Clock) (data : Ledger) (s : ℚ) (hs : 0 ≤ s)
    (hgap : data.last_streak_date = none ∨
      ∃ d, data.last_streak_date = some d ∧ (d : Int) + 1 < (c.today : Int)) :
    (update_streak c data s).saving_streak = 1
    ∧ (update_streak c data s).last_streak_date = some c.today := by
  rcases hgap with hnone | ⟨d, hd, hlt⟩
  · simp [update_streak, hs, hnone]
  · have hne : d ≠ c.today := by omega
    have h1 : ¬((c.today : Int) - (d : Int) = 1) := by omega
    have h2 : (c.today : Int) - (d : Int) > 1 := by omega
    simp [update_streak, hs, hd, hne, h1, h2]

/-- C5 witness: `last_streak_date` 3 days before today with streak 10 and
savings 5 becomes streak 1 (not 11, not 0). -/
theorem c5_gap_restart_witness :
    (update_streak clock30
        { baseLedger with saving_streak := 10, last_streak_date := some 97 }
        5).saving_streak = 1
    ∧ (update_streak clock30
        { baseLedger with saving_streak := 10, last_streak_date := some 97 }
        5).last_streak_date = some 100 :=
  c5_gap_restart clock30
    { baseLedger with saving_streak := 10, last_streak_date := some 97 }
    5 (by norm_num) (Or.inr ⟨97, rfl, by norm_num [clock30]⟩)

/-! ### Pet Mood Resolver claims -/

/-- A ledger with no budget configured but a treat already given today. -/
def zeroIncomeTreated : Ledger :=
  { baseLedger with daily_treat_given := true, last_treat_date := some 100 }

/-- C1 counterexample: with `monthly_income = 0` and a treat given today the
mood is "Excited", not Unconfigured — the treat branch runs last and
overrides the income-zero case. -/
theorem c1_counterexample :
    (get_pet_status zeroIncomeTreated
        (get_financial_summary clock30 zeroIncomeTreated)).mood = "Excited"
    ∧ (get_pet_status zeroIncomeTreated
        (get_financial_summary clock30 zeroIncomeTreated)).mood ≠ "Unconfigured" := by
  constructor <;> decide

/-- C1 amended: with `monthly_income = 0` and no treat given today,
`get_pet_status` returns the unconfigured display state — mood "Neutral"
with the set-up-your-budget message; but a treat given today takes
precedence and yields mood "Excited" even when income is zero. -/
theorem c1_amended_income_zero_mood (c : Clock) (data : Ledger)
    (h : data.monthly_income = 0) :
    (data.daily_treat_given = true →
      (get_pet_status data (get_financial_summary c data)).mood = "Excited")
    ∧ (data.daily_treat_given = false →
      (get_pet_status data (get_financial_summary c data)).mood = "Neutral"
      ∧ (get_pet_status data (get_financial_summary c data)).message
          = "Please set up your budget first in the sidebar!") := by
  have hinc : (get_financial_summary c data).monthly_income = 0 := h
  constructor
  · intro ht
    simp [get_pet_status, hinc, ht]
  · intro ht
    simp [get_pet_status, hinc, ht]

/-- C1 amended witness: the treated zero-income ledger shows "Excited". -/
theorem c1_amended_income_zero_mood_witness :
    (get_pet_status zeroIncomeTreated
        (get_financial_summary clock30 zeroIncomeTreated)).mood = "Excited" :=
  (c1_amended_income_zero_mood clock30 zeroIncomeTreated rfl).1 rfl

/-! ### Reward Unlocker claims -/

/-- A ledger whose streak jumped straight to 30 with nothing unlocked. -/
def streak30Ledger : Ledger := { baseLedger with saving_streak := 30 }

/-- C2 counterexample: when one call crosses both thresholds (streak 30,
nothing unlocked yet), the reward reported is "Monthly Vacation" — the
last threshold crossed — not "Weekly Spa". -/
theorem c2_counterexample :
    (check_rewards streak30Ledger).2 = some "Monthly Vacation"
    ∧ (check_rewards streak30Ledger).2 ≠ some "Weekly Spa" := by
  constructor <;> decide

/-- C2 amended: each call still reports at most one newly unlocked reward,
but when a single call crosses both thresholds the reported reward is the
last threshold crossed, "Monthly Vacation", never "Weekly Spa". -/
theorem c2_amended_reports_last_threshold (data : Ledger)
    (h30 : 30 ≤ data.saving_streak)
    (hspa : "Weekly Spa" ∉ data.rewards_unlocked)
    (hvac : "Monthly Vacation" ∉ data.rewards_unlocked) :
    (check_rewards data).2 = some "Monthly Vacation"
    ∧ (check_rewards data).2 ≠ some "Weekly Spa" := by
  have h7 : 7 ≤ data.saving_streak := by omega
  have hvac1 : "Monthly Vacation" ∉ data.rewards_unlocked ++ ["Weekly Spa"] := by
    simp [hvac]
  constructor
  · simp [check_rewards, h7, hspa, h30, hvac1]
  · simp [check_rewards, h7, hspa, h30, hvac1]

/-- C2 amended witness: streak 30 with an empty reward list. -/
theorem c2_amended_reports_last_threshold_witness :
    (check_rewards streak30Ledger).2 = some "Monthly Vacation"
    ∧ (check_rewards streak30Ledger).2 ≠ some "Weekly Spa" :=
  c2_amended_reports_last_threshold streak30Ledger (by decide) (by decide)
    (by decide)

/-- C10: a call with streak ≥ 30 and neither reward unlocked appends both
reward names, in threshold order, while returning only one name. -/
theorem c10_double_unlock (data : Ledger)
    (h30 : 30 ≤ data.saving_streak)
    (hspa : "Weekly Spa" ∉ data.rewards_unlocked)
    (hvac : "Monthly Vacation" ∉ data.rewards_unlocked) :
    (check_rewards data).1.rewards_unlocked
        = data.rewards_unlocked ++ ["Weekly Spa", "Monthly Vacation"]
    ∧ (check_rewards data).2 = some "Monthly Vacation" := by
  have h7 : 7 ≤ data.saving_streak := by omega
  have hvac1 : "Monthly Vacation" ∉ data.rewards_unlocked ++ ["Weekly Spa"] := by
    simp [hvac]
  constructor
  · simp [check_rewards, h7, hspa, h30, hvac1]
  · simp [check_rewards, h7, hspa, h30, hvac1]

/-- C10 witness: streak 30, empty reward list — both rewards appear. -/
theorem c10_double_unlock_witness :
    (check_rewards streak30Ledger).1.rewards_unlocked
        = ["Weekly Spa", "Monthly Vacation"]
    ∧ (check_rewards streak30Ledger).2 = some "Monthly Vacation" :=
  c10_double_unlock streak30Ledger (by decide) (by decide) (by decide)

/-! ### Expense logging and treat claims -/

/-- C8: a non-positive amount is rejected with the validation error and
the ledger is left entirely unchanged. -/
theorem c8_log_expense_rejects_nonpositive (c : Clock) (data : Ledger)
    (amount : ℚ) (category description : String) (is_big : Bool)
    (h : amount ≤ 0) :
    log_expense_callback c data amount category description is_big
        = .error .validationError
    ∧ applyOp (.logExpense c amount category description is_big) data = data := by
  constructor
  · simp [log_expense_callback, h]
  · simp [applyOp, log_expense_callback, h]

/-- C8 witness: logging −5 is rejected and changes nothing. -/
theorem c8_log_expense_rejects_nonpositive_witness :
    log_expense_callback clock30 baseLedger (-5) "Food" "" false
        = .error .validationError
    ∧ applyOp (.logExpense clock30 (-5) "Food" "" false) baseLedger
        = baseLedger :=
  c8_log_expense_rejects_nonpositive clock30 baseLedger (-5) "Food" "" false
    (by norm_num)

/-- The scenario budget: income 3000, rent 1000, goal 500. -/
def budgetLedger : Ledger :=
  { baseLedger with
    monthly_income := 3000
    monthly_savings_goal := 500
    fixed_expenses := [("Rent", 1000)] }

/-- The scenario budget after logging a 30-unit non-big expense today. -/
def loggedLedger : Ledger :=
  applyOp (.logExpense clock30 30 "Food" "" false) budgetLedger

/-- C9: with income 3000, rent 1000, goal 500 and 30 remaining days,
disposable is 1500 and the daily allowance 50; after logging a 30-unit
non-big expense today, todays_spent = 30, todays_savings = 20,
daily_used_percent = 60, and the pet mood is "Happy". -/
theorem c9_scenario :
    (get_financial_summary clock30 budgetLedger).monthly_income
        - (get_financial_summary clock30 budgetLedger).fixed_expenses_sum
        - (get_financial_summary clock30 budgetLedger).target_saving = 1500
    ∧ (get_financial_summary clock30 budgetLedger).daily_allowance = 50
    ∧ (get_financial_summary clock30 loggedLedger).todays_expenses = 30
    ∧ (get_financial_summary clock30 loggedLedger).todays_savings = 20
    ∧ (get_financial_summary clock30 loggedLedger).daily_used_percent = 60
    ∧ (get_pet_status loggedLedger
        (get_financial_summary clock30 loggedLedger)).mood = "Happy" := by
  have hlog : loggedLedger =
      { budgetLedger with
        daily_expenses := [{ date := 100, amount := 30, category := "Food",
                             description := "", is_big_purchase := false }]
        saving_streak := 1
        last_streak_date := some 100 } := by
    norm_num [loggedLedger, applyOp, log_expense_callback, budgetLedger,
      baseLedger, clock30, get_financial_summary, update_streak,
      check_rewards, List.filter]
  refine ⟨?_, ?_, ?_, ?_, ?_, ?_⟩ <;>
    norm_num [hlog, get_financial_summary, get_pet_status, budgetLedger,
      baseLedger, clock30, List.filter]

/-- C6: `give_treat_callback` succeeds exactly when no treat was given
today and `todays_savings` is non-negative; with the flag set it fails
with AlreadyTreatedToday; with the flag clear and negative savings it
fails with OverBudget; a second call right after a success fails with
AlreadyTreatedToday; and every failure leaves the ledger unchanged. -/
theorem c6_give_treat_guards (c c2 : Clock) (data : Ledger) :
    ((∃ l, give_treat_callback c data = .ok l) ↔
      data.daily_treat_given = false
      ∧ 0 ≤ (get_financial_summary c data).todays_savings)
    ∧ (data.daily_treat_given = true →
        give_treat_callback c data = .error .alreadyTreatedToday)
    ∧ (data.daily_treat_given = false →
        (get_financial_summary c data).todays_savings < 0 →
        give_treat_callback c data = .error .overBudget)
    ∧ (∀ l, give_treat_callback c data = .ok l →
        give_treat_callback c2 l = .error .alreadyTreatedToday)
    ∧ (∀ e, give_treat_callback c data = .error e →
        applyOp (.giveTreat c) data = data) := by
  cases hg : data.daily_treat_given with
  | true =>
    refine ⟨?_, ?_, ?_, ?_, ?_⟩
    · constructor
      · rintro ⟨l, hl⟩
        simp [give_treat_callback, hg] at hl
      · rintro ⟨hfalse, -⟩
        simp [hg] at hfalse
    · intro _
      simp [give_treat_callback, hg]
    · intro hfalse
      simp [hg] at hfalse
    · intro l hl
      simp [give_treat_callback, hg] at hl
    · intro e _
      simp [applyOp, give_treat_callback, hg]
  | false =>
    by_cases hs : 0 ≤ (get_financial_summary c data).todays_savings
    · refine ⟨?_, ?_, ?_, ?_, ?_⟩
      · refine ⟨fun _ => ⟨rfl, hs⟩, fun _ => ?_⟩
        refine ⟨{ data with daily_treat_given := true
                            last_treat_date := some c.today }, ?_⟩
        simp [give_treat_callback, hg, hs]
      · intro htrue
        simp [hg] at htrue
      · intro _ hneg
        exact absurd hs (not_le.mpr hneg)
      · intro l hl
        simp [give_treat_callback, hg, hs] at hl
        rw [← hl]
        simp [give_treat_callback]
      · intro e he
        simp [give_treat_callback, hg, hs] at he
    · refine ⟨?_, ?_, ?_, ?_, ?_⟩
      · constructor
        · rintro ⟨l, hl⟩
          simp [give_treat_callback, hg, hs] at hl
        · rintro ⟨-, h0⟩
          exact absurd h0 hs
      · intro htrue
        simp [hg] at htrue
      · intro _ _
        simp [give_treat_callback, hg, hs]
      · intro l hl
        simp [give_treat_callback, hg, hs] at hl
      · intro e _
        simp [applyOp, give_treat_callback, hg, hs]

/-- A configured ledger whose pet was already treated today. -/
def treatedLedger : Ledger :=
  { baseLedger with
    monthly_income := 3000
    daily_treat_given := true
    last_treat_date := some 100 }

/-- C6 witness: a second treat on the treated ledger is rejected with
AlreadyTreatedToday and the ledger is untouched. -/
theorem c6_give_treat_guards_witness :
    give_treat_callback clock30 treatedLedger = .error .alreadyTreatedToday
    ∧ applyOp (.giveTreat clock30) treatedLedger = treatedLedger :=
  ⟨(c6_give_treat_guards clock30 clock30 treatedLedger).2.1 rfl,
    (c6_give_treat_guards clock30 clock30 treatedLedger).2.2.2.2
      TreatError.alreadyTreatedToday
      ((c6_give_treat_guards clock30 clock30 treatedLedger).2.1 rfl)⟩

/-! ### Reward-list invariants over sequences of core operations -/

/-- Appending one element that is not yet present preserves `Nodup`. -/
lemma nodup_append_not_mem {l : List String} {a : String}
    (h : a ∉ l) (hnd : l.Nodup) : (l ++ [a]).Nodup := by
  simp [List.nodup_append, h, hnd]

/-- `update_streak` never touches the reward list. -/
lemma rewards_unlocked_update_streak (c : Clock) (data : Ledger) (s : ℚ) :
    (update_streak c data s).rewards_unlocked = data.rewards_unlocked := by
  unfold update_streak
  split
  · split
    · split_ifs <;> rfl
    · rfl
  · rfl

/-- `check_rewards` only appends, and appends nothing already present. -/
lemma check_rewards_monotone (data : Ledger) :
    ∃ t, (check_rewards data).1.rewards_unlocked = data.rewards_unlocked ++ t
      ∧ (data.rewards_unlocked.Nodup →
          (check_rewards data).1.rewards_unlocked.Nodup) := by
  by_cases h1 : 7 ≤ data.saving_streak ∧ "Weekly Spa" ∉ data.rewards_unlocked
  · by_cases h2 : 30 ≤ data.saving_streak
        ∧ "Monthly Vacation" ∉ data.rewards_unlocked
    · have hvac1 : "Monthly Vacation" ∉ data.rewards_unlocked ++ ["Weekly Spa"] := by
        simp [h2.2]
      refine ⟨["Weekly Spa", "Monthly Vacation"], ?_, ?_⟩
      · simp [check_rewards, h1, h2]
      · intro hnd
        have hnd2 := nodup_append_not_mem hvac1 (nodup_append_not_mem h1.2 hnd)
        simpa [check_rewards, h1, h2] using hnd2
    · refine ⟨["Weekly Spa"], ?_, ?_⟩
      · simp [check_rewards, h1, h2]
      · intro hnd
        simpa [check_rewards, h1, h2] using nodup_append_not_mem h1.2 hnd
  · by_cases h2 : 30 ≤ data.saving_streak
        ∧ "Monthly Vacation" ∉ data.rewards_unlocked
    · refine ⟨["Monthly Vacation"], ?_, ?_⟩
      · simp [check_rewards, h1, h2]
      · intro hnd
        simpa [check_rewards, h1, h2] using nodup_append_not_mem h2.2 hnd
    · refine ⟨[], ?_, ?_⟩
      · simp [check_rewards, h1, h2]
      · intro hnd
        simpa [check_rewards, h1, h2] using hnd

/-- Every single core operation only appends to the reward list and
preserves freedom from duplicates. -/
lemma rewards_unlocked_applyOp (op : CoreOp) (data : Ledger) :
    ∃ t, (applyOp op data).rewards_unlocked = data.rewards_unlocked ++ t
      ∧ (data.rewards_unlocked.Nodup →
          (applyOp op data).rewards_unlocked.Nodup) := by
  cases op with
  | streakUpdate c s =>
      refine ⟨[], ?_, ?_⟩
      · simp [applyOp, rewards_unlocked_update_streak]
      · intro hnd
        simpa [applyOp, rewards_unlocked_update_streak] using hnd
  | rewardCheck =>
      simpa [applyOp] using check_rewards_monotone data
  | logExpense c a cat desc big =>
      by_cases h : a ≤ 0
      · refine ⟨[], ?_, ?_⟩
        · simp [applyOp, log_expense_callback, h]
        · intro hnd
          simpa [applyOp, log_expense_callback, h] using hnd
      · have happ : applyOp (.logExpense c a cat desc big) data =
            (check_rewards (update_streak c
              { data with daily_expenses := data.daily_expenses ++
                  [{ date := c.today, amount := a, category := cat
                     description := desc, is_big_purchase := big }] }
              (get_financial_summary c
                { data with daily_expenses := data.daily_expenses ++
                    [{ date := c.today, amount := a, category := cat
                       description := desc, is_big_purchase := big }] }).todays_savings)).1 := by
          simp [applyOp, log_expense_callback, h]
        obtain ⟨t, ht, hndt⟩ := check_rewards_monotone (update_streak c
          { data with daily_expenses := data.daily_expenses ++
              [{ date := c.today, amount := a, category := cat
                 description := desc, is_big_purchase := big }] }
          (get_financial_summary c
            { data with daily_expenses := data.daily_expenses ++
                [{ date := c.today, amount := a, category := cat
                   description := desc, is_big_purchase := big }] }).todays_savings)
        rw [rewards_unlocked_update_streak] at ht
        refine ⟨t, ?_, ?_⟩
        · rw [happ, ht]
        · intro hnd
          rw [happ]
          apply hndt
          rw [rewards_unlocked_update_streak]
          exact hnd
  | budgetUpdate i g f =>
      by_cases hneg : i < 0 ∨ g < 0
      · refine ⟨[], ?_, ?_⟩
        · simp [applyOp, update_budget_callback, hneg]
        · intro hnd
          simpa [applyOp, update_budget_callback, hneg] using hnd
      · by_cases hfix : (f.map Prod.snd).sum > i
        · refine ⟨[], ?_, ?_⟩
          · simp [applyOp, update_budget_callback, hneg, hfix]
          · intro hnd
            simpa [applyOp, update_budget_callback, hneg, hfix] using hnd
        · refine ⟨[], ?_, ?_⟩
          · simp [applyOp, update_budget_callback, hneg, hfix]
          · intro hnd
            simpa [applyOp, update_budget_callback, hneg, hfix] using hnd
  | giveTreat c =>
      by_cases hg : data.daily_treat_given
      · refine ⟨[], ?_, ?_⟩
        · simp [applyOp, give_treat_callback, hg]
        · intro hnd
          simpa [applyOp, give_treat_callback, hg] using hnd
      · by_cases hs : 0 ≤ (get_financial_summary c data).todays_savings
        · refine ⟨[], ?_, ?_⟩
          · simp [applyOp, give_treat_callback, hg, hs]
          · intro hnd
            simpa [applyOp, give_treat_callback, hg, hs] using hnd
        · refine ⟨[], ?_, ?_⟩
          · simp [applyOp, give_treat_callback, hg, hs]
          · intro hnd
            simpa [applyOp, give_treat_callback, hg, hs] using hnd
  | dailyReset c =>
      by_cases hd : data.last_treat_date ≠ some c.today
      · refine ⟨[], ?_, ?_⟩
        · simp [applyOp, check_daily_reset, hd]
        · intro hnd
          simpa [applyOp, check_daily_reset, hd] using hnd
      · refine ⟨[], ?_, ?_⟩
        · simp [applyOp, check_daily_reset, hd]
        · intro hnd
          simpa [applyOp, check_daily_reset, hd] using hnd

/-- C7: over any sequence of core operations the reward list only grows
(the old list stays a prefix), stays duplicate-free if it was, and in
particular keeps "Weekly Spa" once present. -/
theorem c7_rewards_monotone_nodup (ops : List CoreOp) (data : Ledger) :
    (∃ t, (applyOps ops data).rewards_unlocked = data.rewards_unlocked ++ t)
    ∧ (data.rewards_unlocked.Nodup →
        (applyOps ops data).rewards_unlocked.Nodup)
    ∧ ("Weekly Spa" ∈ data.rewards_unlocked →
        "Weekly Spa" ∈ (applyOps ops data).rewards_unlocked) := by
  induction ops generalizing data with
  | nil =>
      refine ⟨⟨[], by simp [applyOps]⟩, fun h => ?_, fun h => ?_⟩ <;>
        simpa [applyOps] using h
  | cons op rest ih =>
      obtain ⟨t1, ht1, hnd1⟩ := rewards_unlocked_applyOp op data
      obtain ⟨⟨t2, ht2⟩, hnd2, hmem2⟩ := ih (applyOp op data)
      have hfold : applyOps (op :: rest) data
          = applyOps rest (applyOp op data) := rfl
      refine ⟨⟨t1 ++ t2, ?_⟩, ?_, ?_⟩
      · rw [hfold, ht2, ht1, List.append_assoc]
      · intro hnd
        rw [hfold]
        exact hnd2 (hnd1 hnd)
      · intro hmem
        rw [hfold]
        apply hmem2
        rw [ht1]
        exact List.mem_append_left _ hmem

/-- A ledger that has already unlocked "Weekly Spa" at streak 7. -/
def spaLedger : Ledger :=
  { baseLedger with saving_streak := 7, rewards_unlocked := ["Weekly Spa"] }

/-- Operations that drop the streak to 0 and re-check rewards. -/
def dropOps : List CoreOp :=
  [CoreOp.streakUpdate clock30 (-1), CoreOp.rewardCheck]

/-- C7 witness: after the streak collapses to 0, "Weekly Spa" is still
unlocked. -/
theorem c7_rewards_monotone_nodup_witness :
    "Weekly Spa" ∈ (applyOps dropOps spaLedger).rewards_unlocked :=
  (c7_rewards_monotone_nodup dropOps spaLedger).2.2 (by decide)
